import Mathlib

/-!
Verification of the img-to-excel pipeline (src/main.py).

The program loads an image, and for every source pixel writes three
spreadsheet-cell fill instructions (one per RGB channel), after
configuring the sheet's default column width (0.1) and row height (2.5).
We embed the pure content of the source functions and the control flow of
`main` below, and prove the spec's claims about them.
-/

namespace ImgToExcel

/-- One uppercase hexadecimal digit for a value in 0..15
(embeds Python's uppercase hex formatting of a nibble). -/
def hexDigit (n : Nat) : Char :=
  if n < 10 then Char.ofNat (48 + n) else Char.ofNat (55 + n)

/-- Two-digit zero-padded uppercase hex of a byte value, the embedding of
the format specifier applied to each channel in `rgb_to_hex`
(for values below 256, which is the range of RGB channels). -/
def hexByte (v : Nat) : String :=
  String.mk [hexDigit (v / 16), hexDigit (v % 16)]

/-- Embedding of `rgb_to_hex` (src/main.py lines 13-18): convert a 3-tuple
of decimals representing RGB values to a tuple of hex strings, returned in
(red, green, blue) order. -/
def rgb_to_hex (rgb : Nat × Nat × Nat) : String × String × String :=
  let red := hexByte rgb.1 ++ "0000"
  let green := "00" ++ hexByte rgb.2.1 ++ "00"
  let blue := "0000" ++ hexByte rgb.2.2
  (red, green, blue)

/-- Embedding of `get_subpixel_indices` (src/main.py lines 21-27): the
source computes red_index = col_num + offset, green_index = col_num +
offset + 1, blue_index = col_num + offset + 2, and returns the tuple
(red_index, blue_index, green_index) -- blue before green. -/
def get_subpixel_indices (col_num : Nat) : Nat × Nat × Nat :=
  let offset := (col_num - 1) * 2
  let red_index := col_num + offset
  let green_index := col_num + offset + 1
  let blue_index := col_num + offset + 2
  (red_index, blue_index, green_index)

/-- A fill instruction: (row, column, hex colour string). Embeds one call
of `fill_subpixel`, which sets a solid PatternFill on cell
(row, column). -/
abbrev FillInstr := Nat × Nat × String

/-- Embedding of `fill_pixel` (src/main.py lines 30-39): zip the three
subpixel column indices with the three subpixel colours, producing one
fill instruction per pair, all on the same row. -/
def fill_pixel (row_num : Nat) (subpixel_indices : Nat × Nat × Nat)
    (subpixel_colours : String × String × String) : List FillInstr :=
  [(row_num, subpixel_indices.1, subpixel_colours.1),
   (row_num, subpixel_indices.2.1, subpixel_colours.2.1),
   (row_num, subpixel_indices.2.2, subpixel_colours.2.2)]

/-- An image as normalised by the loader: a width, a height, and a pixel
lookup by 0-indexed (x, y) returning an RGB triple. -/
structure Image where
  width : Nat
  height : Nat
  getpixel : Nat × Nat → Nat × Nat × Nat

/-- The fill instructions produced for the single source pixel addressed
by 1-indexed (col_num, row_num): the body of the inner loop of `main`
(src/main.py lines 64-66). -/
def renderPixel (rgb : Nat × Nat × Nat) (col_num row_num : Nat) :
    List FillInstr :=
  fill_pixel row_num (get_subpixel_indices col_num) (rgb_to_hex rgb)

/-- The full render loop of `main` (src/main.py lines 61-66): outer loop
over 1-indexed columns 1..width, inner loop over 1-indexed rows
1..height, producing the concatenated list of fill instructions in
program order. -/
def renderImage (im : Image) : List FillInstr :=
  (List.range im.width).flatMap (fun i =>
    let col_num := i + 1
    (List.range im.height).flatMap (fun j =>
      let row_num := j + 1
      renderPixel (im.getpixel (col_num - 1, row_num - 1)) col_num row_num))

/-- The in-memory worksheet state: the list of grid-configuration events
(defaultColWidth, defaultRowHeight) applied to it, and the list of cell
fill instructions executed on it, in order. -/
structure Worksheet where
  sheetFormats : List (Rat × Rat)
  fills : List FillInstr
  deriving DecidableEq

/-- Error raised when the input path does not name an existing readable
image; `Image.open` raises it before any pixel is read. -/
structure LoadError where
  msg : String
  deriving DecidableEq

/-- The observable outcome of one run of `main`: the worksheet state, the
destination path the workbook was saved to (if `wb.save` was reached),
and the failure (if the run aborted). -/
structure RunState where
  ws : Worksheet
  savedTo : Option String
  failure : Option LoadError
  deriving DecidableEq

/-- Embedding of `main` (src/main.py lines 49-72): create the workbook
and set the sheet format once (defaultColWidth = 0.1, defaultRowHeight =
2.5), then open the image; a load failure aborts the run before any
rendering or saving, otherwise the render loop runs and the workbook is
saved to the destination path. -/
def main (load : Except LoadError Image) (destination : String) : RunState :=
  let ws : Worksheet := { sheetFormats := [(0.1, 2.5)], fills := [] }
  match load with
  | Except.error e => { ws := ws, savedTo := none, failure := some e }
  | Except.ok im =>
      { ws := { ws with fills := renderImage im },
        savedTo := some destination,
        failure := none }

/-- The 1-by-1 image whose single pixel is (255, 128, 0). -/
def img1x1 : Image :=
  { width := 1, height := 1, getpixel := fun _ => (255, 128, 0) }

/-- A 2-by-1 image (width 2, height 1) with an arbitrary fixed colour. -/
def img2x1 : Image :=
  { width := 2, height := 1, getpixel := fun _ => (17, 34, 51) }

/-- A degenerate image with zero width. -/
def img0w : Image :=
  { width := 0, height := 5, getpixel := fun _ => (0, 0, 0) }

/-- Specification-side definition of the two-digit zero-padded uppercase
hexadecimal rendering of a byte, built independently of `hexByte` from
the standard base-16 digit expansion. -/
def hexByteSpec (v : Nat) : String :=
  let ds := (Nat.toDigits 16 v).map Char.toUpper
  String.mk (if ds.length = 1 then Char.ofNat 48 :: ds else ds)

/-- The three subpixel column indices of an image column, as a list in
positional order. -/
def subpixelColumnList (c : Nat) : List Nat :=
  [(get_subpixel_indices c).1, (get_subpixel_indices c).2.1,
   (get_subpixel_indices c).2.2]

set_option maxRecDepth 10000 in
/-- The source's hex formatting of a byte agrees with the independent
specification-side rendering on every 8-bit value. -/
theorem hexByte_eq_spec : ∀ v < 256, hexByte v = hexByteSpec v := by decide

end ImgToExcel

namespace ImgToExcel

/-- C3 counterexample: `get_subpixel_indices 1` returns (1, 3, 2), not the
tuple (3*1-2, 3*1-1, 3*1) = (1, 2, 3) that the claim states. -/
theorem C3_counterexample :
    get_subpixel_indices 1 = (1, 3, 2) ∧ ¬ get_subpixel_indices 1 = (1, 2, 3) := by
  decide

/-- C3 (amended): for every col_num ≥ 1, `get_subpixel_indices` returns
the tuple (3c-2, 3c, 3c-1) -- positions labelled (red, blue, green) in
the source -- and since `fill_pixel` zips these positions with the
(red, green, blue) colour tuple of `rgb_to_hex`, the red colour lands at
column 3c-2, the blue colour at column 3c-1, and the green colour at
column 3c. -/
theorem C3_subpixel_columns (c : Nat) (h : 1 ≤ c) (row : Nat)
    (p : Nat × Nat × Nat) :
    get_subpixel_indices c = (3 * c - 2, 3 * c, 3 * c - 1) ∧
      renderPixel p c row =
        [(row, 3 * c - 2, (rgb_to_hex p).1),
         (row, 3 * c, (rgb_to_hex p).2.1),
         (row, 3 * c - 1, (rgb_to_hex p).2.2)] := by
  have hidx : get_subpixel_indices c = (3 * c - 2, 3 * c, 3 * c - 1) := by
    simp only [get_subpixel_indices, Prod.mk.injEq]
    omega
  refine ⟨hidx, ?_⟩
  simp [renderPixel, fill_pixel, hidx]

/-- C3 witness: the amended statement evaluated at column 2. -/
theorem C3_witness :
    get_subpixel_indices 2 = (3 * 2 - 2, 3 * 2, 3 * 2 - 1) ∧
      renderPixel (10, 20, 30) 2 7 =
        [(7, 3 * 2 - 2, (rgb_to_hex (10, 20, 30)).1),
         (7, 3 * 2, (rgb_to_hex (10, 20, 30)).2.1),
         (7, 3 * 2 - 1, (rgb_to_hex (10, 20, 30)).2.2)] :=
  C3_subpixel_columns 2 (by decide) 7 (10, 20, 30)

/-- C4 counterexample: at col_num = 1 the returned tuple is (1, 3, 2),
whose second element exceeds the first by 2, not 1: the tuple is not
strictly increasing in positional order. -/
theorem C4_counterexample :
    ¬ ((get_subpixel_indices 1).2.1 = (get_subpixel_indices 1).1 + 1 ∧
       (get_subpixel_indices 1).2.2 = (get_subpixel_indices 1).1 + 2) := by
  decide

/-- C4 (amended): for every col_num ≥ 1 the tuple returned by
`get_subpixel_indices` consists of three consecutive integers starting at
its first element, but positionally the second element exceeds the first
by exactly 2 and the third exceeds the first by exactly 1 (so the tuple
is not strictly increasing; its element set {3c-2, 3c-1, 3c} is
contiguous). -/
theorem C4_contiguous (c : Nat) (h : 1 ≤ c) :
    (get_subpixel_indices c).2.1 = (get_subpixel_indices c).1 + 2 ∧
      (get_subpixel_indices c).2.2 = (get_subpixel_indices c).1 + 1 ∧
      ({(get_subpixel_indices c).1, (get_subpixel_indices c).2.1,
        (get_subpixel_indices c).2.2} : Finset Nat) =
        {3 * c - 2, 3 * c - 1, 3 * c} := by
  refine ⟨by simp [get_subpixel_indices], by simp [get_subpixel_indices], ?_⟩
  simp only [get_subpixel_indices]
  ext x
  simp only [Finset.mem_insert, Finset.mem_singleton]
  omega

/-- C4 witness: the amended statement evaluated at col_num = 3. -/
theorem C4_witness :
    (get_subpixel_indices 3).2.1 = (get_subpixel_indices 3).1 + 2 ∧
      (get_subpixel_indices 3).2.2 = (get_subpixel_indices 3).1 + 1 ∧
      ({(get_subpixel_indices 3).1, (get_subpixel_indices 3).2.1,
        (get_subpixel_indices 3).2.2} : Finset Nat) =
        {3 * 3 - 2, 3 * 3 - 1, 3 * 3} :=
  C4_contiguous 3 (by decide)

/-- C1: running the pipeline on the 1-by-1 image with pixel (255, 128, 0)
fills exactly three cells, all at row 1, at columns 1, 2 and 3, with fill
colour "FF0000" at column 1, "000000" at column 2 and "008000" at
column 3, and no other cell receives a fill. -/
theorem C1_roundtrip_1x1 :
    ((main (Except.ok img1x1) "output.xlsx").ws.fills.length = 3) ∧
      (∀ f ∈ (main (Except.ok img1x1) "output.xlsx").ws.fills, f.1 = 1) ∧
      ((1, 1, "FF0000") ∈ (main (Except.ok img1x1) "output.xlsx").ws.fills) ∧
      ((1, 2, "000000") ∈ (main (Except.ok img1x1) "output.xlsx").ws.fills) ∧
      ((1, 3, "008000") ∈ (main (Except.ok img1x1) "output.xlsx").ws.fills) ∧
      (∀ f ∈ (main (Except.ok img1x1) "output.xlsx").ws.fills,
        f = (1, 1, "FF0000") ∨ f = (1, 2, "000000") ∨ f = (1, 3, "008000")) := by
  decide

/-- C2: for every 3-tuple of 8-bit channel values, `rgb_to_hex` returns
the triple (hex r ++ "0000", "00" ++ hex g ++ "00", "0000" ++ hex b),
where hex is the two-digit zero-padded uppercase hexadecimal rendering;
in each string the byte pairs of the two other channels are "00". -/
theorem C2_channel_isolation (r g b : Nat)
    (hr : r < 256) (hg : g < 256) (hb : b < 256) :
    rgb_to_hex (r, g, b) =
      (hexByteSpec r ++ "0000", "00" ++ hexByteSpec g ++ "00",
       "0000" ++ hexByteSpec b) := by
  simp [rgb_to_hex, hexByte_eq_spec r hr, hexByte_eq_spec g hg,
    hexByte_eq_spec b hb]

/-- C2 witness: the statement evaluated at the channel triple
(171, 5, 0). -/
theorem C2_witness :
    rgb_to_hex (171, 5, 0) =
      (hexByteSpec 171 ++ "0000", "00" ++ hexByteSpec 5 ++ "00",
       "0000" ++ hexByteSpec 0) :=
  C2_channel_isolation 171 5 0 (by decide) (by decide) (by decide)

/-- C5: distinct image columns get disjoint subpixel column index sets,
and for any 2-by-1 image the pipeline produces exactly 6 fill
instructions at pairwise-distinct (row, column) coordinates. -/
theorem C5_no_column_overlap (c1 c2 : Nat) (h1 : 1 ≤ c1) (h2 : 1 ≤ c2)
    (hne : c1 ≠ c2) (im : Image) (hw : im.width = 2) (hh : im.height = 1) :
    (∀ x ∈ subpixelColumnList c1, x ∉ subpixelColumnList c2) ∧
      (renderImage im).length = 6 ∧
      ((renderImage im).map (fun f => (f.1, f.2.1))).Nodup := by
  have hr : renderImage im =
      renderPixel (im.getpixel (0, 0)) 1 1 ++
        renderPixel (im.getpixel (1, 0)) 2 1 := by
    rw [renderImage, hw, hh]
    rfl
  refine ⟨?_, ?_, ?_⟩
  · intro x hx hx2
    simp only [subpixelColumnList, get_subpixel_indices, List.mem_cons,
      List.mem_singleton, List.not_mem_nil, or_false] at hx hx2
    omega
  · simp [hr, renderPixel, fill_pixel]
  · rw [hr]
    simp only [renderPixel, fill_pixel, List.map_append, List.map_cons,
      List.map_nil]
    decide

/-- C5 witness: the statement evaluated at columns 1 and 2 and the
concrete 2-by-1 image. -/
theorem C5_witness :
    (∀ x ∈ subpixelColumnList 1, x ∉ subpixelColumnList 2) ∧
      (renderImage img2x1).length = 6 ∧
      ((renderImage img2x1).map (fun f => (f.1, f.2.1))).Nodup :=
  C5_no_column_overlap 1 2 (by decide) (by decide) (by decide) img2x1
    rfl rfl

/-- C6: every fill instruction produced for the source pixel at 0-indexed
coordinates (x, y) targets worksheet row y + 1, whatever its subpixel
column. -/
theorem C6_row_invariant (im : Image) (x y : Nat) (f : FillInstr)
    (hf : f ∈ renderPixel (im.getpixel (x, y)) (x + 1) (y + 1)) :
    f.1 = y + 1 := by
  simp only [renderPixel, fill_pixel, List.mem_cons,
    List.not_mem_nil, or_false] at hf
  rcases hf with h | h | h <;> subst h <;> rfl

/-- C6 witness: the fill instruction (1, 1, "FF0000") of the pixel at
(0, 0) of the 1-by-1 image targets row 0 + 1. -/
theorem C6_witness : ((1, 1, "FF0000") : FillInstr).1 = 0 + 1 :=
  C6_row_invariant img1x1 0 0 (1, 1, "FF0000") (by decide)

/-- C7: when the image load fails, the run aborts with the load error
before any rendering or saving: no cell fill is set and no workbook is
saved. -/
theorem C7_load_error_aborts (e : LoadError) (dest : String) :
    (main (Except.error e) dest).ws.fills = [] ∧
      (main (Except.error e) dest).savedTo = none ∧
      (main (Except.error e) dest).failure = some e :=
  ⟨rfl, rfl, rfl⟩

/-- C8: rendering a single pixel is deterministic: identical (R, G, B)
values at identical (column, row) coordinates yield identical fill
instruction triples, across any two runs. -/
theorem C8_deterministic (p1 p2 : Nat × Nat × Nat) (c1 c2 r1 r2 : Nat)
    (hp : p1 = p2) (hc : c1 = c2) (hr : r1 = r2) :
    renderPixel p1 c1 r1 = renderPixel p2 c2 r2 := by
  rw [hp, hc, hr]

/-- C8 witness: the statement evaluated at pixel (1, 2, 3), column 4,
row 5. -/
theorem C8_witness : renderPixel (1, 2, 3) 4 5 = renderPixel (1, 2, 3) 4 5 :=
  C8_deterministic (1, 2, 3) (1, 2, 3) 4 4 5 5 rfl rfl rfl

/-- C9: every run, failed or successful, applies exactly one grid
configuration to the worksheet, with default column width 0.1 and
default row height 2.5, independent of the image. -/
theorem C9_grid_config_once (load : Except LoadError Image) (dest : String) :
    (main load dest).ws.sheetFormats = [(0.1, 2.5)] := by
  cases load <;> rfl

/-- C10: on an image with zero width or zero height the pipeline still
completes: no cell fill is set, the workbook is saved to the destination,
and the single grid configuration (0.1, 2.5) is applied. -/
theorem C10_degenerate_image (im : Image) (dest : String)
    (h : im.width = 0 ∨ im.height = 0) :
    (main (Except.ok im) dest).ws.fills = [] ∧
      (main (Except.ok im) dest).savedTo = some dest ∧
      (main (Except.ok im) dest).ws.sheetFormats = [(0.1, 2.5)] := by
  refine ⟨?_, rfl, rfl⟩
  show renderImage im = []
  rcases h with h | h <;> simp [renderImage, h]

/-- C10 witness: the statement evaluated at a width-0 image. -/
theorem C10_witness :
    (main (Except.ok img0w) "out.xlsx").ws.fills = [] ∧
      (main (Except.ok img0w) "out.xlsx").savedTo = some "out.xlsx" ∧
      (main (Except.ok img0w) "out.xlsx").ws.sheetFormats = [(0.1, 2.5)] :=
  C10_degenerate_image img0w "out.xlsx" (Or.inl rfl)

end ImgToExcel
